import Mathlib

/-!
# Nexus hybrid storage layer — verification development

Shallow embedding of `src/services/storage.ts` (the local simulated store
`mockDb`, the hybrid facade `db` with its `useMock` failover flag, and the
subscription machinery) together with the registration flow of
`handleAuth` (AuthScreen).  All definitions are translated from the
TypeScript source; remote (Firestore) behaviour, which lives outside the
repository, is abstracted as an outcome parameter, except for the single
spec-modelled equality query noted at `remoteQueryUsername`.
-/

namespace Nexus

/-- A user record (`User` in `src/types`, fields as used by `storage.ts`
and the components). `typingTo = none` models `null`. -/
structure User where
  id : String
  username : String
  passwordHash : String
  bio : String
  avatar : String
  status : String
  lastSeen : Nat
  typingTo : Option String := none
deriving DecidableEq, Repr

/-- A chat message (`Message` in `src/types`). `timestamp` is the
`Date.now()` value set at creation. -/
structure Message where
  id : String
  senderId : String
  receiverId : String
  content : String
  timestamp : Nat
  isRead : Bool
deriving DecidableEq, Repr

/-- Embeds `FriendRequest.status ∈ \x7bpending, accepted, rejected\x7d`. -/
inductive ReqStatus where
  | pending
  | accepted
  | rejected
deriving DecidableEq, Repr

/-- A friend request (`FriendRequest` in `src/types`). -/
structure FriendRequest where
  id : String
  fromId : String
  toId : String
  status : ReqStatus
  timestamp : Nat
deriving DecidableEq, Repr

/-- A friendship record (`Friendship` in `src/types`). -/
structure Friendship where
  id : String
  user1Id : String
  user2Id : String
  createdAt : Nat
deriving DecidableEq, Repr

/-- The second argument of `handleFriendRequest`, whose TypeScript type is
the union `'accepted' | 'rejected'`. -/
inductive Resolution where
  | accepted
  | rejected
deriving DecidableEq, Repr

/-- The `FriendRequest.status` value written for a `Resolution`. -/
def Resolution.toStatus : Resolution → ReqStatus
  | .accepted => .accepted
  | .rejected => .rejected

/-- The four collections persisted by `mockStore` under the keys
`mock_users`, `mock_messages`, `mock_requests`, `mock_friendships`
(each a JSON array in localStorage). -/
structure MockStore where
  users : List User
  messages : List Message
  requests : List FriendRequest
  friendships : List Friendship
deriving DecidableEq, Repr

/-- The empty local store (every key absent reads back as `[]`). -/
def MockStore.empty : MockStore := ⟨[], [], [], []⟩

/-- A message posted on the `nexus_realtime` BroadcastChannel:
`mockStore.set` posts `sync key`; `updateUserStatus` additionally posts
`user_update`; `sendMessage` additionally posts `new_msg`. -/
inductive MockEvent where
  | sync (key : String)
  | userUpdate (userId : String)
  | newMsg (msg : Message)
deriving DecidableEq, Repr

/-- Embeds `mockDb.getUser`: first user whose `id` matches, else `null`. -/
def mockGetUser (s : MockStore) (id : String) : Option User :=
  s.users.find? (fun u => u.id == id)

/-- Embeds `username.toLowerCase()`: lower-case every character. -/
def lowerStr (s : String) : String := ⟨s.data.map Char.toLower⟩

/-- Embeds `mockDb.getUserByUsername`: first user whose lower-cased username
equals the lower-cased argument, else `null`. -/
def mockGetUserByUsername (s : MockStore) (username : String) : Option User :=
  s.users.find? (fun u => lowerStr u.username == lowerStr username)

/-- Embeds `users[idx] = user` when `findIndex` hits, else `users.push(user)`:
replace the first record with the same id, or append. -/
def saveUserList : List User → User → List User
  | [], u => [u]
  | x :: xs, u => if x.id == u.id then u :: xs else x :: saveUserList xs u

/-- Embeds `mockDb.saveUser`: upsert keyed on `id`, then `mockStore.set('users', …)`
(which broadcasts `sync 'users'`). -/
def mockSaveUser (s : MockStore) (u : User) : MockStore × List MockEvent :=
  ({ s with users := saveUserList s.users u }, [.sync "users"])

/-- A `Partial<User>` argument of `updateUserStatus`: a field set to
`some v` is present in the updates object. `typingTo := some none`
models `\x7b typingTo: null \x7d`. -/
structure UserUpdates where
  username : Option String := none
  passwordHash : Option String := none
  bio : Option String := none
  avatar : Option String := none
  status : Option String := none
  lastSeen : Option Nat := none
  typingTo : Option (Option String) := none
deriving DecidableEq, Repr

/-- The spread `\x7b ...users[idx], ...updates \x7d`: fields present in the
updates object win. -/
def applyUpdates (u : User) (up : UserUpdates) : User :=
  { u with
    username := up.username.getD u.username
    passwordHash := up.passwordHash.getD u.passwordHash
    bio := up.bio.getD u.bio
    avatar := up.avatar.getD u.avatar
    status := up.status.getD u.status
    lastSeen := up.lastSeen.getD u.lastSeen
    typingTo := up.typingTo.getD u.typingTo }

/-- Merge the updates into the first user whose `id` matches
(`users[idx] = \x7b ...users[idx], ...updates \x7d`). -/
def updateFirst : List User → String → UserUpdates → List User
  | [], _, _ => []
  | x :: xs, userId, up =>
    if x.id == userId then applyUpdates x up :: xs
    else x :: updateFirst xs userId up

/-- Embeds `mockDb.updateUserStatus`: when a user with the id exists, merge the
updates into that record, persist (`sync 'users'`) and post
`user_update`; when no user matches (`idx === -1`) nothing happens. -/
def mockUpdateUserStatus (s : MockStore) (userId : String) (up : UserUpdates) :
    MockStore × List MockEvent :=
  if s.users.any (fun u => u.id == userId) then
    ({ s with users := updateFirst s.users userId up },
     [.sync "users", .userUpdate userId])
  else (s, [])

/-- Embeds `mockDb.sendMessage`: `msgs.push(msg)`, persist (`sync 'messages'`),
then post `new_msg`. -/
def mockSendMessage (s : MockStore) (msg : Message) : MockStore × List MockEvent :=
  ({ s with messages := s.messages ++ [msg] }, [.sync "messages", .newMsg msg])

/-- The per-message mutation of `mockDb.markMessagesAsRead`: set
`isRead = true` exactly on unread messages from `senderId` to `userId`. -/
def markRead (userId senderId : String) (m : Message) : Message :=
  if m.receiverId == userId && m.senderId == senderId && !m.isRead then
    { m with isRead := true }
  else m

/-- Embeds `mockDb.markMessagesAsRead`: flip matching unread messages to read and
persist only if something changed. -/
def mockMarkMessagesAsRead (s : MockStore) (userId senderId : String) :
    MockStore × List MockEvent :=
  let changed := s.messages.any
    (fun m => m.receiverId == userId && m.senderId == senderId && !m.isRead)
  if changed then
    ({ s with messages := s.messages.map (markRead userId senderId) },
     [.sync "messages"])
  else (s, [])

/-- Embeds `mockDb.sendFriendRequest`: `reqs.push(req)` and persist. -/
def mockSendFriendRequest (s : MockStore) (req : FriendRequest) :
    MockStore × List MockEvent :=
  ({ s with requests := s.requests ++ [req] }, [.sync "requests"])

/-- Embeds `req.status = status` on the first request whose id matches. -/
def setStatusFirst : List FriendRequest → String → ReqStatus → List FriendRequest
  | [], _, _ => []
  | r :: rs, rid, st =>
    if r.id == rid then { r with status := st } :: rs
    else r :: setStatusFirst rs rid st

/-- The default comparison of JS `Array.sort` on strings: lexicographic
by character code. -/
def strLe : List Char → List Char → Bool
  | [], _ => true
  | _ :: _, [] => false
  | x :: xs, y :: ys => if x = y then strLe xs ys else decide (x.toNat < y.toNat)

/-- Embeds `[req.fromId, req.toId].sort().join('_')`: the deterministic friendship
id, the two member ids in lexicographic order joined by an underscore. -/
def friendshipId (a b : String) : String :=
  if strLe a.toList b.toList then a ++ "_" ++ b else b ++ "_" ++ a

/-- Embeds `mockDb.handleFriendRequest`: find the request (first id match; absent
id is a silent return), overwrite its status, persist, and on `accepted`
push a friendship record with the deterministic id. `now` is the
`Date.now()` read for `createdAt`. -/
def mockHandleFriendRequest (s : MockStore) (requestId : String)
    (res : Resolution) (now : Nat) : MockStore × List MockEvent :=
  match s.requests.find? (fun r => r.id == requestId) with
  | none => (s, [])
  | some req =>
    let s1 := { s with requests := setStatusFirst s.requests requestId res.toStatus }
    match res with
    | .accepted =>
      ({ s1 with friendships := s1.friendships ++
          [{ id := friendshipId req.fromId req.toId
             user1Id := req.fromId
             user2Id := req.toId
             createdAt := now }] },
       [.sync "requests", .sync "friendships"])
    | .rejected => (s1, [.sync "requests"])

/-- The conversation predicate of `subscribeToMessages`: messages between
`userId` and `friendId` in either direction. -/
def betweenUsers (userId friendId : String) (m : Message) : Bool :=
  (m.senderId == userId && m.receiverId == friendId) ||
  (m.senderId == friendId && m.receiverId == userId)

/-- The payload computed by the `refresh` of `mockDb.subscribeToMessages`:
filter the conversation, then `.sort((a, b) => a.timestamp - b.timestamp)`
(a stable ascending sort on the timestamp). -/
def conversationMessages (msgs : List Message) (userId friendId : String) :
    List Message :=
  (msgs.filter (betweenUsers userId friendId)).mergeSort
    (fun a b => a.timestamp ≤ b.timestamp)

/-- The friend-id set of `mockDb.subscribeToFriends`: the opposite member
of every friendship containing `userId`. -/
def friendIdsOf (friendships : List Friendship) (userId : String) : List String :=
  (friendships.filter (fun f => f.user1Id == userId || f.user2Id == userId)).map
    (fun f => if f.user1Id == userId then f.user2Id else f.user1Id)

/-- The payload of the `refresh` of `mockDb.subscribeToFriends`. -/
def friendsPayload (s : MockStore) (userId : String) : List User :=
  s.users.filter (fun u => (friendIdsOf s.friendships userId).contains u.id)

/-- The payload of the `refresh` of `mockDb.subscribeToIncomingRequests`:
pending requests addressed to `userId`. -/
def incomingRequests (s : MockStore) (userId : String) : List FriendRequest :=
  s.requests.filter (fun r => r.toId == userId && r.status == .pending)

/-- Embeds `s.includes(pat)`: substring containment on character lists. -/
def isSubstring (pat : List Char) : List Char → Bool
  | [] => pat.isEmpty
  | c :: rest => pat.isPrefixOf (c :: rest) || isSubstring pat rest

/-- The module-level `useMock` computed at lines 40–50: true when the api
key is absent or contains `"Placeholder"`, or when `initializeApp` /
`getFirestore` throws. -/
def initUseMock (apiKey : Option String) (initThrows : Bool) : Bool :=
  let base := apiKey.isNone || isSubstring "Placeholder".toList (apiKey.getD "").toList
  if base then true else if initThrows then true else false

/-- The four subscription shapes of the facade, each carrying its
arguments: `subscribeToUser`, `subscribeToFriends`, `subscribeToMessages`,
`subscribeToIncomingRequests`. -/
inductive SubKind where
  | user (userId : String)
  | friends (userId : String)
  | messages (userId friendId : String)
  | requests (userId : String)
deriving DecidableEq, Repr

/-- A registered listener: a channel handler (local) or a Firestore
snapshot listener (remote). The callback is identified opaquely by a
number; the code never inspects callbacks, it only stores and calls
them. -/
structure Listener where
  lid : Nat
  kind : SubKind
  callback : Nat
deriving DecidableEq, Repr

/-- The whole process state of `storage.ts`: the `useMock` flag, the
persisted local collections, the handlers registered on the
`nexus_realtime` channel, and the live Firestore snapshot listeners. -/
structure World where
  useMock : Bool
  store : MockStore
  localHandlers : List Listener
  remoteListeners : List Listener
  nextId : Nat
deriving DecidableEq, Repr

/-- The unsubscribe handle a facade `subscribeToX` returns: either the
Firestore unsubscribe of `onSnapshot`, or the mock closure that removes
the channel handler. -/
inductive Handle where
  | ofRemote (lid : Nat)
  | ofLocal (lid : Nat)
deriving DecidableEq, Repr

/-- Whether `onSnapshot` itself throws synchronously (the `try`/`catch`
around the remote subscription). -/
inductive SubOutcome where
  | ok
  | threw
deriving DecidableEq, Repr

/-- A facade `db.subscribeToX` call. In mock mode register a channel
handler; otherwise register a remote listener, except that when
`onSnapshot` throws the `catch` branch registers the mock handler instead
(note: that branch does not flip `useMock`). -/
def subscribeDb (w : World) (k : SubKind) (cb : Nat) (r : SubOutcome) :
    World × Handle :=
  if w.useMock then
    ({ w with localHandlers := w.localHandlers ++ [⟨w.nextId, k, cb⟩],
              nextId := w.nextId + 1 }, .ofLocal w.nextId)
  else
    match r with
    | .ok =>
      ({ w with remoteListeners := w.remoteListeners ++ [⟨w.nextId, k, cb⟩],
                nextId := w.nextId + 1 }, .ofRemote w.nextId)
    | .threw =>
      ({ w with localHandlers := w.localHandlers ++ [⟨w.nextId, k, cb⟩],
                nextId := w.nextId + 1 }, .ofLocal w.nextId)

/-- The error callback of a remote `onSnapshot` listener firing (remote
transport failure): set `useMock = true` and call the corresponding
`mockDb.subscribeToX` with the same arguments and callback, whose
returned unsubscribe closure the handler discards. Firestore deactivates
the erroring listener, so it is dropped from the remote set. -/
def remoteFail (w : World) (lid : Nat) : World :=
  match w.remoteListeners.find? (fun l => l.lid == lid) with
  | none => w
  | some l =>
    { w with useMock := true
             remoteListeners := w.remoteListeners.filter (fun x => x.lid != lid)
             localHandlers := w.localHandlers ++ [⟨w.nextId, l.kind, l.callback⟩]
             nextId := w.nextId + 1 }

/-- Invoking an unsubscribe handle: the Firestore unsubscribe detaches the
remote listener; the mock closure removes its channel handler. -/
def unsubscribe (w : World) (h : Handle) : World :=
  match h with
  | .ofRemote lid =>
    { w with remoteListeners := w.remoteListeners.filter (fun x => x.lid != lid) }
  | .ofLocal lid =>
    { w with localHandlers := w.localHandlers.filter (fun x => x.lid != lid) }

/-- Whether a mock channel handler of the given kind reacts to a channel
event by calling its callback (the guards of the four `handler`
closures; a user handler only fires when `getUser` resolves to a user). -/
def fires (s : MockStore) (k : SubKind) (e : MockEvent) : Bool :=
  match k, e with
  | .user uid, .userUpdate uid2 => uid2 == uid && (mockGetUser s uid).isSome
  | .user uid, .sync key => key == "users" && (mockGetUser s uid).isSome
  | .friends _, .sync key => key == "friendships" || key == "users"
  | .messages _ _, .newMsg _ => true
  | .messages _ _, .sync key => key == "messages"
  | .requests _, .sync key => key == "requests"
  | _, _ => false

/-- The callbacks invoked by the registered local handlers when a channel
event is broadcast. -/
def deliveredCallbacks (w : World) (e : MockEvent) : List Nat :=
  (w.localHandlers.filter (fun l => fires w.store l.kind e)).map
    (fun l => l.callback)

/-- Outcome of an awaited remote (Firestore) call: the value it resolves
to, or a thrown failure. The remote database is outside the repository,
so the value is a parameter. -/
inductive RemoteOutcome (α : Type) where
  | ok (a : α)
  | fail
deriving DecidableEq, Repr

/-- Embeds `db.getUser`. -/
def dbGetUser (w : World) (id : String) (r : RemoteOutcome (Option User)) :
    World × Option User :=
  if w.useMock then (w, mockGetUser w.store id)
  else
    match r with
    | .ok v => (w, v)
    | .fail => ({ w with useMock := true }, mockGetUser w.store id)

/-- Embeds `db.getUserByUsername`. -/
def dbGetUserByUsername (w : World) (username : String)
    (r : RemoteOutcome (Option User)) : World × Option User :=
  if w.useMock then (w, mockGetUserByUsername w.store username)
  else
    match r with
    | .ok v => (w, v)
    | .fail => ({ w with useMock := true }, mockGetUserByUsername w.store username)

/-- Embeds `db.saveUser`. -/
def dbSaveUser (w : World) (u : User) (r : RemoteOutcome Unit) :
    World × List MockEvent :=
  if w.useMock then
    let p := mockSaveUser w.store u
    ({ w with store := p.1 }, p.2)
  else
    match r with
    | .ok _ => (w, [])
    | .fail =>
      let p := mockSaveUser w.store u
      ({ w with useMock := true, store := p.1 }, p.2)

/-- Embeds `db.updateUserStatus`. -/
def dbUpdateUserStatus (w : World) (userId : String) (up : UserUpdates)
    (r : RemoteOutcome Unit) : World × List MockEvent :=
  if w.useMock then
    let p := mockUpdateUserStatus w.store userId up
    ({ w with store := p.1 }, p.2)
  else
    match r with
    | .ok _ => (w, [])
    | .fail =>
      let p := mockUpdateUserStatus w.store userId up
      ({ w with useMock := true, store := p.1 }, p.2)

/-- Embeds `db.sendMessage`. -/
def dbSendMessage (w : World) (msg : Message) (r : RemoteOutcome Unit) :
    World × List MockEvent :=
  if w.useMock then
    let p := mockSendMessage w.store msg
    ({ w with store := p.1 }, p.2)
  else
    match r with
    | .ok _ => (w, [])
    | .fail =>
      let p := mockSendMessage w.store msg
      ({ w with useMock := true, store := p.1 }, p.2)

/-- Embeds `db.markMessagesAsRead`. -/
def dbMarkMessagesAsRead (w : World) (userId senderId : String)
    (r : RemoteOutcome Unit) : World × List MockEvent :=
  if w.useMock then
    let p := mockMarkMessagesAsRead w.store userId senderId
    ({ w with store := p.1 }, p.2)
  else
    match r with
    | .ok _ => (w, [])
    | .fail =>
      let p := mockMarkMessagesAsRead w.store userId senderId
      ({ w with useMock := true, store := p.1 }, p.2)

/-- Embeds `db.sendFriendRequest`. -/
def dbSendFriendRequest (w : World) (req : FriendRequest)
    (r : RemoteOutcome Unit) : World × List MockEvent :=
  if w.useMock then
    let p := mockSendFriendRequest w.store req
    ({ w with store := p.1 }, p.2)
  else
    match r with
    | .ok _ => (w, [])
    | .fail =>
      let p := mockSendFriendRequest w.store req
      ({ w with useMock := true, store := p.1 }, p.2)

/-- Embeds `db.handleFriendRequest` (the remote branch reads, updates and writes
Firestore documents; its effects stay remote, so a successful remote call
leaves the local world unchanged). -/
def dbHandleFriendRequest (w : World) (requestId : String) (res : Resolution)
    (now : Nat) (r : RemoteOutcome Unit) : World × List MockEvent :=
  if w.useMock then
    let p := mockHandleFriendRequest w.store requestId res now
    ({ w with store := p.1 }, p.2)
  else
    match r with
    | .ok _ => (w, [])
    | .fail =>
      let p := mockHandleFriendRequest w.store requestId res now
      ({ w with useMock := true, store := p.1 }, p.2)

/-- One interaction with `storage.ts`: a facade call (with the outcome of
its remote leg, when one is attempted), an unsubscribe, or a remote
listener error event. -/
inductive DbCall where
  | getUser (id : String) (r : RemoteOutcome (Option User))
  | getUserByUsername (username : String) (r : RemoteOutcome (Option User))
  | saveUser (u : User) (r : RemoteOutcome Unit)
  | updateUserStatus (userId : String) (up : UserUpdates) (r : RemoteOutcome Unit)
  | sendMessage (msg : Message) (r : RemoteOutcome Unit)
  | markMessagesAsRead (userId senderId : String) (r : RemoteOutcome Unit)
  | sendFriendRequest (req : FriendRequest) (r : RemoteOutcome Unit)
  | handleFriendRequest (requestId : String) (res : Resolution) (now : Nat)
      (r : RemoteOutcome Unit)
  | subscribe (k : SubKind) (cb : Nat) (r : SubOutcome)
  | unsub (h : Handle)
  | listenerError (lid : Nat)

/-- The state transition of one interaction. -/
def step (w : World) (c : DbCall) : World :=
  match c with
  | .getUser id r => (dbGetUser w id r).1
  | .getUserByUsername username r => (dbGetUserByUsername w username r).1
  | .saveUser u r => (dbSaveUser w u r).1
  | .updateUserStatus userId up r => (dbUpdateUserStatus w userId up r).1
  | .sendMessage msg r => (dbSendMessage w msg r).1
  | .markMessagesAsRead userId senderId r =>
      (dbMarkMessagesAsRead w userId senderId r).1
  | .sendFriendRequest req r => (dbSendFriendRequest w req r).1
  | .handleFriendRequest requestId res now r =>
      (dbHandleFriendRequest w requestId res now r).1
  | .subscribe k cb r => (subscribeDb w k cb r).1
  | .unsub h => unsubscribe w h
  | .listenerError lid => remoteFail w lid

/-- Run a sequence of interactions. -/
def run (w : World) (cs : List DbCall) : World :=
  cs.foldl step w

/-- The dispatcher restricted to the local backend: what every call does
once `useMock` is true (each facade method's first line is
`if (useMock) return mockDb.X(...)`). -/
def localStep (w : World) (c : DbCall) : World :=
  match c with
  | .getUser _ _ => w
  | .getUserByUsername _ _ => w
  | .saveUser u _ => { w with store := (mockSaveUser w.store u).1 }
  | .updateUserStatus userId up _ =>
      { w with store := (mockUpdateUserStatus w.store userId up).1 }
  | .sendMessage msg _ => { w with store := (mockSendMessage w.store msg).1 }
  | .markMessagesAsRead userId senderId _ =>
      { w with store := (mockMarkMessagesAsRead w.store userId senderId).1 }
  | .sendFriendRequest req _ =>
      { w with store := (mockSendFriendRequest w.store req).1 }
  | .handleFriendRequest requestId res now _ =>
      { w with store := (mockHandleFriendRequest w.store requestId res now).1 }
  | .subscribe k cb _ =>
      { w with localHandlers := w.localHandlers ++ [⟨w.nextId, k, cb⟩],
               nextId := w.nextId + 1 }
  | .unsub h => unsubscribe w h
  | .listenerError lid => remoteFail w lid

/-- Embeds `authService.encryptPassword`: `btoa('NexusSalt_' + password)`. The
trailing base64 step is an injective re-encoding done by the platform and
is dropped here; no claim depends on the encoded form. -/
def encryptPassword (password : String) : String := "NexusSalt_" ++ password

/-- The outcome `handleAuth` (AuthScreen) surfaces for a registration
attempt: a validation error message shown via `setError`, or a successful
registration logging in the new user. -/
inductive AuthResult where
  | validationError (msg : String)
  | registered (u : User)
deriving DecidableEq, Repr

/-- The registration branch of `handleAuth` (AuthScreen, `isRegistering`):
empty fields are rejected; then `db.getUserByUsername` decides
availability; on a hit the error is `'Username already taken.'` and
nothing is saved; otherwise a new `User` is built and saved with
`db.saveUser`. `newId` stands for `crypto.randomUUID()` and `now` for
`Date.now()`. -/
def registerUser (w : World) (username password : String) (newId : String)
    (now : Nat) (rLookup : RemoteOutcome (Option User))
    (rSave : RemoteOutcome Unit) : World × AuthResult :=
  if username == "" || password == "" then
    (w, .validationError "Please fill in all fields.")
  else
    let p := dbGetUserByUsername w username rLookup
    match p.2 with
    | some _ => (p.1, .validationError "Username already taken.")
    | none =>
      let newUser : User :=
        { id := newId
          username := username
          passwordHash := encryptPassword password
          bio := "Nexus user active."
          avatar := "https://picsum.photos/seed/" ++ username ++ "/200"
          status := "online"
          lastSeen := now }
      let q := dbSaveUser p.1 newUser rSave
      (q.1, .registered newUser)

/-- Modelled from the spec: the Remote Store Adapter's query with an
equality filter (§4.2 offers "equality and membership filters only"); the
remote document database itself is not part of the repository. An
equality filter on the `username` field matches records whose field is
exactly the given string, which is what
`query(collection(firestore, 'users'), where('username', '==', username))`
requests in `db.getUserByUsername`. -/
def remoteQueryUsername (remoteUsers : List User) (username : String) :
    Option User :=
  remoteUsers.find? (fun u => u.username == username)

/-! ## Helper lemmas -/

theorem find?_setStatusFirst :
    ∀ (l : List FriendRequest) (rid : String) (st : ReqStatus)
      (req : FriendRequest),
      l.find? (fun r => r.id == rid) = some req →
      (setStatusFirst l rid st).find? (fun r => r.id == rid) =
        some { req with status := st }
  | [], _, _, _, h => by simp at h
  | x :: xs, rid, st, req, h => by
    rw [List.find?_cons] at h
    cases hb : (x.id == rid) with
    | true =>
      rw [hb] at h
      simp only [if_true] at h
      injection h with h
      subst h
      simp only [setStatusFirst, hb, if_true]
      rw [List.find?_cons]
      simp [hb]
    | false =>
      rw [hb] at h
      simp only [Bool.false_eq_true, if_false] at h
      simp only [setStatusFirst, hb, Bool.false_eq_true, if_false]
      rw [List.find?_cons]
      simp only [hb, Bool.false_eq_true, if_false]
      exact find?_setStatusFirst xs rid st req h

/-! ## Claims -/

/-- C10: `mockDb.updateUserStatus` with a user id absent from the users
collection is a silent no-op: it completes without error, the persisted
users collection (indeed the whole store) is unchanged, and no channel
message is posted, so the caller gets no indication the target was
absent. -/
theorem updateUserStatus_absent_silent_noop (s : MockStore) (userId : String)
    (up : UserUpdates) (h : ∀ u ∈ s.users, u.id ≠ userId) :
    mockUpdateUserStatus s userId up = (s, []) := by
  have hany : s.users.any (fun u => u.id == userId) = false := by
    rw [List.any_eq_false]
    intro u hu
    simpa using h u hu
  simp [mockUpdateUserStatus, hany]

/-- Witness for C10 at a concrete store. -/
theorem updateUserStatus_absent_silent_noop_witness :
    (∀ u ∈ ([⟨"u1", "alice", "h", "b", "a", "online", 0, none⟩] : List User),
        u.id ≠ "u2") ∧
    mockUpdateUserStatus
        ⟨[⟨"u1", "alice", "h", "b", "a", "online", 0, none⟩], [], [], []⟩
        "u2" {} =
      (⟨[⟨"u1", "alice", "h", "b", "a", "online", 0, none⟩], [], [], []⟩, []) :=
  ⟨by decide, updateUserStatus_absent_silent_noop _ _ _ (by decide)⟩

/-- C1 (code bug): the local `handleFriendRequest` pushes a fresh
friendship record on every acceptance, so accepting the same request
twice, or independently accepting the A→B and the B→A requests, leaves
several Friendship records for the pair — all carrying the same
deterministic id, which therefore fails to make creation idempotent in
the simulated store (the remote branch, writing the document keyed by
that id, is idempotent). -/
theorem duplicate_friendship_records :
    ((mockHandleFriendRequest
        ((mockHandleFriendRequest
            ((mockHandleFriendRequest
                ⟨[], [], [⟨"r1", "a", "b", .pending, 0⟩,
                          ⟨"r2", "b", "a", .pending, 0⟩], []⟩
                "r1" .accepted 1).1)
            "r1" .accepted 2).1)
        "r2" .accepted 3).1).friendships =
      [⟨"a_b", "a", "b", 1⟩, ⟨"a_b", "a", "b", 2⟩, ⟨"a_b", "b", "a", 3⟩] := by
  decide

/-- C2 (counterexample): re-resolving an already-resolved request is not a
no-op — `handleFriendRequest` overwrites the stored status with the new
argument, here moving a request backwards from `accepted` to
`rejected`. -/
theorem resolved_request_status_overwritten :
    ((mockHandleFriendRequest ⟨[], [], [⟨"r1", "a", "b", .accepted, 0⟩], []⟩
        "r1" .rejected 5).1).requests =
      [⟨"r1", "a", "b", .rejected, 0⟩] := by decide

/-- C2 amended: calling `handleFriendRequest` on an already-resolved
request is indeed not an error, but it is not a no-op either: the
request's status is overwritten with the given argument (so
accepted→rejected is possible), and when the argument is `accepted` one
more Friendship record is appended; the users and messages collections
are untouched. -/
theorem handleFriendRequest_rewrites_resolved (s : MockStore) (rid : String)
    (res : Resolution) (now : Nat) (req : FriendRequest)
    (hfind : s.requests.find? (fun r => r.id == rid) = some req)
    (_hres : req.status ≠ .pending) :
    ((mockHandleFriendRequest s rid res now).1).requests.find?
        (fun r => r.id == rid) = some { req with status := res.toStatus } ∧
    ((mockHandleFriendRequest s rid res now).1).users = s.users ∧
    ((mockHandleFriendRequest s rid res now).1).messages = s.messages ∧
    (res = .accepted → ((mockHandleFriendRequest s rid res now).1).friendships =
        s.friendships ++
          [⟨friendshipId req.fromId req.toId, req.fromId, req.toId, now⟩]) ∧
    (res = .rejected → ((mockHandleFriendRequest s rid res now).1).friendships =
        s.friendships) := by
  cases res <;>
    simp [mockHandleFriendRequest, hfind, find?_setStatusFirst _ _ _ _ hfind]

/-- Witness for the amended C2 at a concrete resolved request. -/
theorem handleFriendRequest_rewrites_resolved_witness :
    (([⟨"r1", "a", "b", .accepted, 0⟩] : List FriendRequest).find?
        (fun r => r.id == "r1") = some ⟨"r1", "a", "b", .accepted, 0⟩) ∧
    (ReqStatus.accepted ≠ .pending) ∧
    (((mockHandleFriendRequest ⟨[], [], [⟨"r1", "a", "b", .accepted, 0⟩], []⟩
        "r1" .rejected 5).1).requests.find? (fun r => r.id == "r1") =
      some ⟨"r1", "a", "b", .rejected, 0⟩) :=
  ⟨by decide, by decide,
    (handleFriendRequest_rewrites_resolved
      ⟨[], [], [⟨"r1", "a", "b", .accepted, 0⟩], []⟩ "r1" .rejected 5
      ⟨"r1", "a", "b", .accepted, 0⟩ (by decide) (by decide)).1⟩

/-- C6: every non-subscription facade operation executed in REMOTE mode
whose remote leg fails is retried against the local simulated store: the
caller observes the local result (no exception escapes, the functions are
total), and the mode flag is demoted to LOCAL. -/
theorem remote_failure_local_retry (w : World) (h : w.useMock = false) :
    (∀ id, dbGetUser w id .fail =
      ({ w with useMock := true }, mockGetUser w.store id)) ∧
    (∀ username, dbGetUserByUsername w username .fail =
      ({ w with useMock := true }, mockGetUserByUsername w.store username)) ∧
    (∀ u, dbSaveUser w u .fail =
      ({ w with useMock := true, store := (mockSaveUser w.store u).1 },
       (mockSaveUser w.store u).2)) ∧
    (∀ userId up, dbUpdateUserStatus w userId up .fail =
      ({ w with useMock := true,
                store := (mockUpdateUserStatus w.store userId up).1 },
       (mockUpdateUserStatus w.store userId up).2)) ∧
    (∀ msg, dbSendMessage w msg .fail =
      ({ w with useMock := true, store := (mockSendMessage w.store msg).1 },
       (mockSendMessage w.store msg).2)) ∧
    (∀ userId senderId, dbMarkMessagesAsRead w userId senderId .fail =
      ({ w with useMock := true,
                store := (mockMarkMessagesAsRead w.store userId senderId).1 },
       (mockMarkMessagesAsRead w.store userId senderId).2)) ∧
    (∀ req, dbSendFriendRequest w req .fail =
      ({ w with useMock := true,
                store := (mockSendFriendRequest w.store req).1 },
       (mockSendFriendRequest w.store req).2)) ∧
    (∀ requestId res now, dbHandleFriendRequest w requestId res now .fail =
      ({ w with useMock := true,
                store := (mockHandleFriendRequest w.store requestId res now).1 },
       (mockHandleFriendRequest w.store requestId res now).2)) := by
  refine ⟨?_, ?_, ?_, ?_, ?_, ?_, ?_, ?_⟩ <;> intros <;>
    simp [dbGetUser, dbGetUserByUsername, dbSaveUser, dbUpdateUserStatus,
      dbSendMessage, dbMarkMessagesAsRead, dbSendFriendRequest,
      dbHandleFriendRequest, h]

/-- Witness for C6: a failing remote `getUser` in REMOTE mode yields the
local answer and demotes the mode. -/
theorem remote_failure_local_retry_witness :
    (World.mk false MockStore.empty [] [] 0).useMock = false ∧
    dbGetUser (World.mk false MockStore.empty [] [] 0) "u1" .fail =
      (World.mk true MockStore.empty [] [] 0, none) :=
  ⟨rfl, by
    have h := (remote_failure_local_retry
      (World.mk false MockStore.empty [] [] 0) rfl).1 "u1"
    simpa using h⟩

/-- C9 (counterexample): in REMOTE mode the username lookup
`where('username', '==', username)` is an exact-match equality query, so
registering `"Alice"` while `"alice"` exists remotely is NOT rejected —
the lookup misses and the registration goes through, contradicting the
claimed unconditional case-insensitive rejection. -/
theorem case_variant_not_rejected_in_remote_mode :
    (registerUser ⟨false, MockStore.empty, [], [], 0⟩ "Alice" "pw" "id2" 9
        (.ok (remoteQueryUsername
          [⟨"id1", "alice", "h", "b", "a", "online", 0, none⟩] "Alice"))
        (.ok ())).2 =
      .registered ⟨"id2", "Alice", "NexusSalt_pw", "Nexus user active.",
        "https://picsum.photos/seed/Alice/200", "online", 9, none⟩ := by
  decide

theorem remoteFail_useMock_true (w : World) (lid : Nat)
    (h : w.useMock = true) : (remoteFail w lid).useMock = true := by
  unfold remoteFail
  cases hf : w.remoteListeners.find? (fun l => l.lid == lid) with
  | none => simpa using h
  | some l => simp

theorem step_local_dispatch (w : World) (c : DbCall) (h : w.useMock = true) :
    step w c = localStep w c := by
  cases c with
  | getUser id r => simp [step, localStep, dbGetUser, h]
  | getUserByUsername username r => simp [step, localStep, dbGetUserByUsername, h]
  | saveUser u r => simp [step, localStep, dbSaveUser, h]
  | updateUserStatus userId up r => simp [step, localStep, dbUpdateUserStatus, h]
  | sendMessage msg r => simp [step, localStep, dbSendMessage, h]
  | markMessagesAsRead userId senderId r =>
      simp [step, localStep, dbMarkMessagesAsRead, h]
  | sendFriendRequest req r => simp [step, localStep, dbSendFriendRequest, h]
  | handleFriendRequest requestId res now r =>
      simp [step, localStep, dbHandleFriendRequest, h]
  | subscribe k cb r => simp [step, localStep, subscribeDb, h]
  | unsub hd => rfl
  | listenerError lid => rfl

theorem localStep_useMock_mono (w : World) (c : DbCall)
    (h : w.useMock = true) : (localStep w c).useMock = true := by
  cases c with
  | unsub hd => cases hd <;> simpa [localStep, unsubscribe] using h
  | listenerError lid => exact remoteFail_useMock_true w lid h
  | _ => simpa [localStep] using h

theorem step_useMock_mono (w : World) (c : DbCall) (h : w.useMock = true) :
    (step w c).useMock = true := by
  rw [step_local_dispatch w c h]
  exact localStep_useMock_mono w c h

theorem run_useMock_mono (w : World) (cs : List DbCall)
    (h : w.useMock = true) : (run w cs).useMock = true := by
  induction cs generalizing w with
  | nil => simpa [run] using h
  | cons c cs ih =>
    have h1 := step_useMock_mono w c h
    simpa [run] using ih (step w c) h1

/-- C5: the failover mode is a two-state machine whose LOCAL state is
terminal. It starts LOCAL when the remote credentials are absent or when
initialization throws; and once `useMock` is true, every interaction is
dispatched to the local simulated store (it coincides with the pure-local
dispatcher) and no interaction ever resets the flag, over any sequence of
interactions. -/
theorem local_mode_terminal :
    (∀ t, initUseMock none t = true) ∧
    (∀ key, initUseMock (some key) true = true) ∧
    (∀ (w : World) (c : DbCall), w.useMock = true →
       step w c = localStep w c ∧ (step w c).useMock = true) ∧
    (∀ (w : World) (cs : List DbCall), w.useMock = true →
       (run w cs).useMock = true) := by
  refine ⟨?_, ?_, ?_, ?_⟩
  · intro t; simp [initUseMock]
  · intro key; simp [initUseMock]
  · intro w c h; exact ⟨step_local_dispatch w c h, step_useMock_mono w c h⟩
  · intro w cs h; exact run_useMock_mono w cs h

/-- Witness for C5 at concrete inputs. -/
theorem local_mode_terminal_witness :
    initUseMock none false = true ∧
    (World.mk true MockStore.empty [] [] 0).useMock = true ∧
    step (World.mk true MockStore.empty [] [] 0) (.getUser "x" (.ok none)) =
      localStep (World.mk true MockStore.empty [] [] 0) (.getUser "x" (.ok none)) ∧
    (run (World.mk true MockStore.empty [] [] 0)
        [.getUser "x" (.ok none), .saveUser ⟨"u", "n", "p", "b", "a", "online", 0, none⟩ .fail]).useMock = true :=
  ⟨local_mode_terminal.1 false, rfl,
   (local_mode_terminal.2.2.1 _ _ rfl).1,
   local_mode_terminal.2.2.2 _ _ rfl⟩

/-- C4 (code bug): after a failover the unsubscribe handle returned at
subscribe time no longer releases anything. The local handler the error
callback registered (whose own unsubscribe closure the error callback
discarded) survives the call to the handle, and its callback keeps being
invoked on matching channel events. -/
theorem unsubscribe_after_failover_leaks :
    (unsubscribe
        (remoteFail
          (subscribeDb ⟨false, MockStore.empty, [], [], 0⟩
            (.messages "a" "b") 7 .ok).1 0)
        (subscribeDb ⟨false, MockStore.empty, [], [], 0⟩
            (.messages "a" "b") 7 .ok).2).localHandlers =
      [⟨1, .messages "a" "b", 7⟩] ∧
    deliveredCallbacks
        (unsubscribe
          (remoteFail
            (subscribeDb ⟨false, MockStore.empty, [], [], 0⟩
              (.messages "a" "b") 7 .ok).1 0)
          (subscribeDb ⟨false, MockStore.empty, [], [], 0⟩
              (.messages "a" "b") 7 .ok).2)
        (.sync "messages") = [7] := by decide

/-- C7: every notification computed by the conversation subscription's
refresh contains exactly the messages exchanged between the two users
(either direction), in ascending order of the timestamp field — for every
state of the messages collection, hence regardless of insertion order. -/
theorem conversation_messages_sorted_exact (msgs : List Message) (A B : String) :
    List.Perm (conversationMessages msgs A B) (msgs.filter (betweenUsers A B)) ∧
    (conversationMessages msgs A B).Sorted
      (fun a b : Message => a.timestamp ≤ b.timestamp) := by
  constructor
  · exact List.mergeSort_perm _ _
  · have htrans : ∀ a b c : Message,
        (fun a b : Message => decide (a.timestamp ≤ b.timestamp)) a b →
        (fun a b : Message => decide (a.timestamp ≤ b.timestamp)) b c →
        (fun a b : Message => decide (a.timestamp ≤ b.timestamp)) a c := by
      intro a b c hab hbc
      simp only [decide_eq_true_eq] at hab hbc ⊢
      omega
    have htotal : ∀ a b : Message,
        ((fun a b : Message => decide (a.timestamp ≤ b.timestamp)) a b ||
         (fun a b : Message => decide (a.timestamp ≤ b.timestamp)) b a) := by
      intro a b
      simp only [Bool.or_eq_true, decide_eq_true_eq]
      omega
    have h := List.sorted_mergeSort htrans htotal (msgs.filter (betweenUsers A B))
    refine List.Pairwise.imp ?_ h
    intro a b hab
    simpa using hab

theorem find?_lid_append (rl : List Listener) (n : Nat) (k : SubKind) (cb : Nat)
    (h : ∀ l ∈ rl, l.lid ≠ n) :
    (rl ++ [(⟨n, k, cb⟩ : Listener)]).find? (fun l => l.lid == n) =
      some (⟨n, k, cb⟩ : Listener) := by
  induction rl with
  | nil => simp
  | cons y ys ih =>
    have hy : (y.lid == n) = false := by
      simpa using h y (List.mem_cons_self y ys)
    rw [List.cons_append, List.find?_cons]
    simp only [hy, Bool.false_eq_true, if_false]
    exact ih (fun l hl => h l (List.mem_cons_of_mem y hl))

/-- C3: a subscription of any of the four kinds opened while the backend
is REMOTE keeps delivering after its remote transport fails, without any
re-subscribe call: the error handler flips the mode to LOCAL and
registers a local channel handler with the same kind and the same
callback, so the callback is among those invoked on every matching
channel event, with payloads computed from the unchanged local store. -/
theorem subscription_survives_failover (w : World) (k : SubKind) (cb : Nat)
    (hmode : w.useMock = false)
    (hwf : ∀ l ∈ w.remoteListeners, l.lid < w.nextId) :
    (remoteFail (subscribeDb w k cb .ok).1 w.nextId).useMock = true ∧
    (remoteFail (subscribeDb w k cb .ok).1 w.nextId).store = w.store ∧
    Listener.mk (w.nextId + 1) k cb ∈
      (remoteFail (subscribeDb w k cb .ok).1 w.nextId).localHandlers ∧
    (∀ e, fires w.store k e = true →
       cb ∈ deliveredCallbacks (remoteFail (subscribeDb w k cb .ok).1 w.nextId) e) := by
  obtain ⟨um, st, lh, rl, n⟩ := w
  replace hmode : um = false := hmode
  subst hmode
  replace hwf : ∀ l ∈ rl, l.lid < n := hwf
  have hfind := find?_lid_append rl n k cb (fun l hl => Nat.ne_of_lt (hwf l hl))
  have h1 : subscribeDb (World.mk false st lh rl n) k cb .ok =
      (World.mk false st lh (rl ++ [(⟨n, k, cb⟩ : Listener)]) (n + 1),
       Handle.ofRemote n) := rfl
  have h2 : remoteFail
      (World.mk false st lh (rl ++ [(⟨n, k, cb⟩ : Listener)]) (n + 1)) n =
      World.mk true st (lh ++ [(⟨n + 1, k, cb⟩ : Listener)])
        ((rl ++ [(⟨n, k, cb⟩ : Listener)]).filter (fun x => x.lid != n))
        (n + 2) := by
    unfold remoteFail
    dsimp only
    rw [hfind]
  rw [h1]
  dsimp only
  rw [h2]
  refine ⟨rfl, rfl, by simp, ?_⟩
  intro e hfire
  unfold deliveredCallbacks
  dsimp only
  refine List.mem_map.mpr ⟨⟨n + 1, k, cb⟩, ?_, rfl⟩
  refine List.mem_filter.mpr ⟨by simp, ?_⟩
  exact hfire

/-- Witness for C3: a messages subscription opened in REMOTE mode at a
concrete world still reaches its callback after the remote failure. -/
theorem subscription_survives_failover_witness :
    ((World.mk false MockStore.empty [] [] 0).useMock = false) ∧
    (∀ l ∈ (World.mk false MockStore.empty [] [] 0).remoteListeners,
        l.lid < (World.mk false MockStore.empty [] [] 0).nextId) ∧
    fires MockStore.empty (.messages "a" "b") (.sync "messages") = true ∧
    7 ∈ deliveredCallbacks
        (remoteFail (subscribeDb (World.mk false MockStore.empty [] [] 0)
            (.messages "a" "b") 7 .ok).1 0) (.sync "messages") :=
  ⟨rfl, by decide, rfl,
    (subscription_survives_failover (World.mk false MockStore.empty [] [] 0)
      (.messages "a" "b") 7 rfl (by decide)).2.2.2 (.sync "messages") rfl⟩

theorem mockUpdateUserStatus_messages (s : MockStore) (userId : String)
    (up : UserUpdates) :
    ((mockUpdateUserStatus s userId up).1).messages = s.messages := by
  unfold mockUpdateUserStatus
  split <;> rfl

theorem mockHandleFriendRequest_messages (s : MockStore) (rid : String)
    (res : Resolution) (now : Nat) :
    ((mockHandleFriendRequest s rid res now).1).messages = s.messages := by
  unfold mockHandleFriendRequest
  cases s.requests.find? (fun r => r.id == rid) with
  | none => rfl
  | some req => cases res <;> rfl

theorem mockMarkMessagesAsRead_messages_eq (s : MockStore) (uid sid : String) :
    ((mockMarkMessagesAsRead s uid sid).1).messages =
      if s.messages.any (fun m => m.receiverId == uid && m.senderId == sid && !m.isRead)
      then s.messages.map (markRead uid sid) else s.messages := by
  unfold mockMarkMessagesAsRead
  dsimp only
  split <;> rfl

theorem step_messages_shape (w : World) (c : DbCall) :
    (step w c).store.messages = w.store.messages ∨
    (∃ msg, (step w c).store.messages = w.store.messages ++ [msg]) ∨
    (∃ uid sid, (step w c).store.messages =
        w.store.messages.map (markRead uid sid)) := by
  cases c with
  | getUser id r =>
    left
    simp only [step, dbGetUser]
    split
    · rfl
    · cases r <;> rfl
  | getUserByUsername username r =>
    left
    simp only [step, dbGetUserByUsername]
    split
    · rfl
    · cases r <;> rfl
  | saveUser u r =>
    left
    simp only [step, dbSaveUser]
    split
    · rfl
    · cases r <;> rfl
  | updateUserStatus userId up r =>
    left
    simp only [step, dbUpdateUserStatus]
    split
    · exact mockUpdateUserStatus_messages _ _ _
    · cases r with
      | ok a => rfl
      | fail => exact mockUpdateUserStatus_messages _ _ _
  | sendMessage msg r =>
    simp only [step, dbSendMessage]
    split
    · right; left; exact ⟨msg, rfl⟩
    · cases r with
      | ok a => left; rfl
      | fail => right; left; exact ⟨msg, rfl⟩
  | markMessagesAsRead userId senderId r =>
    simp only [step, dbMarkMessagesAsRead]
    split
    · rw [show ((({ w with store := (mockMarkMessagesAsRead w.store userId senderId).1 } : World)).store.messages) = ((mockMarkMessagesAsRead w.store userId senderId).1).messages from rfl,
        mockMarkMessagesAsRead_messages_eq]
      split
      · right; right; exact ⟨userId, senderId, rfl⟩
      · left; rfl
    · cases r with
      | ok a => left; rfl
      | fail =>
        rw [show ((({ w with useMock := true, store := (mockMarkMessagesAsRead w.store userId senderId).1 } : World)).store.messages) = ((mockMarkMessagesAsRead w.store userId senderId).1).messages from rfl,
          mockMarkMessagesAsRead_messages_eq]
        split
        · right; right; exact ⟨userId, senderId, rfl⟩
        · left; rfl
  | sendFriendRequest req r =>
    left
    simp only [step, dbSendFriendRequest]
    split
    · rfl
    · cases r <;> rfl
  | handleFriendRequest requestId res now r =>
    left
    simp only [step, dbHandleFriendRequest]
    split
    · exact mockHandleFriendRequest_messages _ _ _ _
    · cases r with
      | ok a => rfl
      | fail => exact mockHandleFriendRequest_messages _ _ _ _
  | subscribe k cb r =>
    left
    simp only [step, subscribeDb]
    split
    · rfl
    · cases r <;> rfl
  | unsub hd => left; cases hd <;> rfl
  | listenerError lid =>
    left
    simp only [step, remoteFail]
    split <;> rfl

theorem markRead_of_isRead (uid sid : String) (m : Message)
    (h : m.isRead = true) : markRead uid sid m = m := by
  simp [markRead, h]

/-- C8: `Message.isRead` is monotonic. First half: across every
interaction with the layer, a message stored with `isRead = true` is
still stored unchanged at the same position afterwards. Second half:
`markMessagesAsRead` performs exactly the false→true transition on
messages from the given sender to the given receiver and returns every
other message unchanged. -/
theorem isRead_monotone :
    (∀ (w : World) (c : DbCall) (i : Nat) (m : Message),
       w.store.messages[i]? = some m → m.isRead = true →
       (step w c).store.messages[i]? = some m) ∧
    (∀ (s : MockStore) (uid sid : String) (i : Nat) (m : Message),
       s.messages[i]? = some m →
       ((m.receiverId == uid && m.senderId == sid && !m.isRead) = false →
          ((mockMarkMessagesAsRead s uid sid).1).messages[i]? = some m) ∧
       ((m.receiverId == uid && m.senderId == sid && !m.isRead) = true →
          ((mockMarkMessagesAsRead s uid sid).1).messages[i]? =
            some { m with isRead := true })) := by
  constructor
  · intro w c i m hm hread
    rcases step_messages_shape w c with h | ⟨msg, h⟩ | ⟨uid, sid, h⟩
    · rw [h]; exact hm
    · rw [h]
      have hlen : i < w.store.messages.length :=
        (List.getElem?_eq_some_iff.mp hm).1
      rw [List.getElem?_append_left hlen]
      exact hm
    · rw [h, List.getElem?_map, hm]
      simp [markRead_of_isRead uid sid m hread]
  · intro s uid sid i m hm
    rw [mockMarkMessagesAsRead_messages_eq]
    by_cases hch : s.messages.any
        (fun m => m.receiverId == uid && m.senderId == sid && !m.isRead) = true
    · rw [if_pos hch]
      constructor
      · intro hcond
        rw [List.getElem?_map, hm]
        simp [markRead, hcond]
      · intro hcond
        rw [List.getElem?_map, hm]
        simp [markRead, hcond]
    · rw [if_neg hch]
      constructor
      · intro _; exact hm
      · intro hcond
        exfalso
        apply hch
        rw [List.any_eq_true]
        refine ⟨m, ?_, hcond⟩
        obtain ⟨hl, he⟩ := List.getElem?_eq_some_iff.mp hm
        exact he ▸ List.getElem_mem hl

/-- Witness for C8: a read message survives a further
`markMessagesAsRead`, and the matching-unread characterization at a
concrete store. -/
theorem isRead_monotone_witness :
    ((World.mk true ⟨[], [⟨"m1", "a", "b", "hi", 1, true⟩], [], []⟩ [] [] 0).store.messages[0]? =
      some ⟨"m1", "a", "b", "hi", 1, true⟩) ∧
    (Message.isRead ⟨"m1", "a", "b", "hi", 1, true⟩ = true) ∧
    (step (World.mk true ⟨[], [⟨"m1", "a", "b", "hi", 1, true⟩], [], []⟩ [] [] 0)
        (.markMessagesAsRead "b" "a" (.ok ()))).store.messages[0]? =
      some ⟨"m1", "a", "b", "hi", 1, true⟩ :=
  ⟨by decide, rfl,
    isRead_monotone.1 _ (.markMessagesAsRead "b" "a" (.ok ())) 0 _ (by decide) rfl⟩

/-- C9 amended: in LOCAL mode the registration conflict check is
case-insensitive: when some stored user's username matches the candidate
up to letter case, `handleAuth` surfaces exactly
`'Username already taken.'` and the world (in particular the users
collection) is left untouched — no record is saved. -/
theorem register_conflict_case_insensitive_local (w : World)
    (username password newId : String) (now : Nat)
    (rL : RemoteOutcome (Option User)) (rS : RemoteOutcome Unit)
    (hmode : w.useMock = true)
    (hu : (username == "") = false) (hp : (password == "") = false)
    (hex : ∃ u ∈ w.store.users, lowerStr u.username = lowerStr username) :
    registerUser w username password newId now rL rS =
      (w, .validationError "Username already taken.") := by
  have hsome : (w.store.users.find?
      (fun v => lowerStr v.username == lowerStr username)).isSome := by
    rw [List.find?_isSome]
    obtain ⟨u, hmem, hequ⟩ := hex
    exact ⟨u, hmem, beq_iff_eq.mpr hequ⟩
  obtain ⟨ex, hfind⟩ := Option.isSome_iff_exists.mp hsome
  unfold registerUser
  simp only [hu, hp, Bool.or_self, Bool.false_eq_true, if_false]
  simp [dbGetUserByUsername, hmode, mockGetUserByUsername, hfind]

/-- Witness for the amended C9: registering `"ALICE"` in LOCAL mode while
`"alice"` exists is rejected with the conflict message and saves
nothing. -/
theorem register_conflict_case_insensitive_local_witness :
    ((World.mk true ⟨[⟨"id1", "alice", "h", "b", "a", "online", 0, none⟩], [], [], []⟩ [] [] 0).useMock = true) ∧
    (("ALICE" == "") = false) ∧ (("pw" == "") = false) ∧
    (∃ u ∈ (World.mk true ⟨[⟨"id1", "alice", "h", "b", "a", "online", 0, none⟩], [], [], []⟩ [] [] 0).store.users,
        lowerStr u.username = lowerStr "ALICE") ∧
    registerUser
        (World.mk true ⟨[⟨"id1", "alice", "h", "b", "a", "online", 0, none⟩], [], [], []⟩ [] [] 0)
        "ALICE" "pw" "id2" 9 (.ok none) (.ok ()) =
      (World.mk true ⟨[⟨"id1", "alice", "h", "b", "a", "online", 0, none⟩], [], [], []⟩ [] [] 0,
       .validationError "Username already taken.") :=
  ⟨rfl, rfl, rfl, by decide,
    register_conflict_case_insensitive_local _ _ _ _ _ _ _ rfl rfl rfl (by decide)⟩

end Nexus
